import Mathlib

/-!
Shallow embedding of the Volcengine ASR binary-protocol client
(`src/main/services/asr/lib/volcengine-client.ts`) and proofs about it.

Buffers are modelled as `List Nat` (each element one byte).  JavaScript
exceptions are modelled with `Except Unit`: `.error ()` means the original
code throws at that point, `.ok` is a normal return.
-/

namespace Volcengine

/-- `data[i]` on a Node `Buffer`: the byte at index `i` (reads used by the
parser are guarded, so out-of-range reads never influence a result; we
default to 0). -/
def byteAt (data : List Nat) (i : Nat) : Nat :=
  data.getD i 0

/-- `intToBytes` (source lines 86-90): `Buffer.writeInt32BE`, the big-endian
two's-complement encoding of a 32-bit signed integer.  `writeInt32BE` throws
for values outside `[-2^31, 2^31)`; every theorem that relies on the byte
image carries that range as a hypothesis, and inside the range this total
encoding agrees with the source. -/
def intToBytes (value : Int) : List Nat :=
  let u := (value % 4294967296).toNat
  [u / 16777216 % 256, u / 65536 % 256, u / 256 % 256, u % 256]

/-- The signed 32-bit big-endian value of four bytes. -/
def int32OfBytes (b0 b1 b2 b3 : Nat) : Int :=
  if b0 * 16777216 + b1 * 65536 + b2 * 256 + b3 < 2147483648 then
    ((b0 * 16777216 + b1 * 65536 + b2 * 256 + b3 : Nat) : Int)
  else ((b0 * 16777216 + b1 * 65536 + b2 * 256 + b3 : Nat) : Int) - 4294967296

/-- `bytesToInt` (source lines 92-94): `Buffer.readInt32BE(offset)`.
Node throws `ERR_OUT_OF_RANGE` when `offset + 4 > length`, hence the
`Except`. -/
def readInt32 (data : List Nat) (off : Nat) : Except Unit Int :=
  if off + 4 ≤ data.length then
    .ok (int32OfBytes (byteAt data off) (byteAt data (off + 1))
      (byteAt data (off + 2)) (byteAt data (off + 3)))
  else .error ()

/-- `Buffer.slice(start, end)` with JavaScript clamping semantics: negative
indices count from the end, indices are clamped to `[0, length]`, and an
empty buffer results when `end ≤ start`. -/
def jsSlice (data : List Nat) (start endI : Int) : List Nat :=
  let n : Int := data.length
  let s := if start < 0 then max (n + start) 0 else min start n
  let e := if endI < 0 then max (n + endI) 0 else min endI n
  if e ≤ s then [] else (data.drop s.toNat).take (e - s).toNat

/-- Modelled from the spec: the compression layer (`zlib.gzipSync` /
`zlib.gunzipSync`, an external library, not part of the repository sources).
`compress` never throws; `decompress` throws (`.error ()`) on input that is
not gzip data, and inverting `compress` always succeeds — the contract of
gzip that the client relies on ("compression is standard gzip", spec §6). -/
structure GzipCodec where
  compress : List Nat → List Nat
  decompress : List Nat → Except Unit (List Nat)
  roundtrip : ∀ d, decompress (compress d) = .ok d

/-- The two gzip magic bytes `0x1f 0x8b` that begin every gzip stream. -/
def gzipMagic : List Nat := [31, 139]

/-- Modelled from the spec: a concrete executable instance of the gzip
contract, used to evaluate the development on concrete inputs.  It keeps the
one property of real gzip the client's control flow depends on: output starts
with the gzip magic, and decompressing bytes that do not is an error. -/
def modelGzip : GzipCodec where
  compress d := gzipMagic ++ d
  decompress d := if d.take 2 = gzipMagic then .ok (d.drop 2) else .error ()
  roundtrip := by intro d; simp [gzipMagic]

/-! Protocol constants, source lines 20-42. -/

def VERSION : Nat := 1
def HEADER_SIZE : Nat := 1
def MSG_FULL_CLIENT_REQUEST : Nat := 1
def MSG_AUDIO_ONLY_REQUEST : Nat := 2
def MSG_FULL_SERVER_RESPONSE : Nat := 9
def MSG_SERVER_ACK : Nat := 11
def MSG_SERVER_ERROR : Nat := 15
def FLAG_NO_SEQUENCE : Nat := 0
def FLAG_POS_SEQUENCE : Nat := 1
def FLAG_NEG_SEQUENCE : Nat := 3
def SERIAL_JSON : Nat := 1
def COMPRESS_NONE : Nat := 0
def COMPRESS_GZIP : Nat := 1

/-- `buildHeader` (source lines 72-84). -/
def buildHeader (messageType messageTypeFlags serialization compression : Nat) :
    List Nat :=
  [(VERSION <<< 4) ||| HEADER_SIZE,
   (messageType <<< 4) ||| messageTypeFlags,
   (serialization <<< 4) ||| compression,
   0]

/-- `buildInitRequest` (source lines 97-113).  `jsonBytes` stands for
`Buffer.from(JSON.stringify(data), 'utf-8')`. -/
def buildInitRequest (gz : GzipCodec) (jsonBytes : List Nat) (sequence : Int) :
    List Nat :=
  buildHeader MSG_FULL_CLIENT_REQUEST FLAG_POS_SEQUENCE SERIAL_JSON COMPRESS_GZIP
    ++ intToBytes sequence
    ++ intToBytes (gz.compress jsonBytes).length
    ++ gz.compress jsonBytes

/-- `buildAudioRequest` (source lines 116-137). -/
def buildAudioRequest (gz : GzipCodec) (audioData : List Nat) (sequence : Int)
    (isLast : Bool) : List Nat :=
  let flag := if isLast then FLAG_NEG_SEQUENCE else FLAG_POS_SEQUENCE
  let seqValue := if isLast then -sequence else sequence
  buildHeader MSG_AUDIO_ONLY_REQUEST flag SERIAL_JSON COMPRESS_GZIP
    ++ intToBytes seqValue
    ++ intToBytes (gz.compress audioData).length
    ++ gz.compress audioData

/-! The JSON payload shape read by `parseResponse` (lines 199-207): the
parser looks only at `payload.result`, `payload.result.text` and
`payload.result.utterances[].text`.  `Option` models an absent (or
`null`/`undefined`, i.e. falsy) field. -/

/-- One element of `payload.result.utterances`. -/
structure Utterance where
  text : String
deriving DecidableEq

/-- The `payload.result` object. -/
structure RecResult where
  text : Option String
  utterances : Option (List Utterance)
deriving DecidableEq

/-- The decoded JSON payload of a full server response. -/
structure Payload where
  result : Option RecResult
deriving DecidableEq

/-- The text-extraction logic of `parseResponse` (source lines 199-207):
`text = payload.result.text || ''`, falling back to
`payload.result.utterances.map(u => u.text).join('')` when `text` is empty
and `utterances` is present (note: an empty array is truthy in JavaScript). -/
def extractText (payload : Payload) : String :=
  match payload.result with
  | none => ""
  | some r =>
    let t := r.text.getD ""
    if t = "" then
      match r.utterances with
      | some us => String.join (us.map Utterance.text)
      | none => t
    else t

/-- `ParsedResponse` (source lines 140-146): one constructor per return site
of `parseResponse`; each carries exactly the fields that return site sets
(in particular the error variant has no numeric-code field — the interface
does not declare one). -/
inductive ParsedResponse where
  | ack (sequence : Int)
  | result (sequence : Int) (text : String) (isFinal : Bool)
  | error (sequence : Int) (error : List Nat)
deriving DecidableEq

/-- `parseResponse` (source lines 148-223).  `jp` stands for
`JSON.parse` composed with the field accesses of lines 199-207: it returns
`none` when `JSON.parse` (or the subsequent field traversal) throws — that
exception is caught by the `try` of lines 193-218 and turned into `null`.
A `.error ()` of the whole function is an uncaught JavaScript exception
(`readInt32BE` out of range, or `gunzipSync` on invalid gzip data — both
outside the `try`). -/
def parseResponse (gz : GzipCodec) (jp : List Nat → Option Payload)
    (data : List Nat) : Except Unit (Option ParsedResponse) :=
  if data.length < 4 then .ok none
  else
    let messageType := (byteAt data 1 >>> 4) &&& 15
    let messageFlags := byteAt data 1 &&& 15
    let compression := byteAt data 2 &&& 15
    if messageType = MSG_SERVER_ERROR then do
      let _code ← readInt32 data 4
      let msgSize ← readInt32 data 8
      let raw := jsSlice data 12 (12 + msgSize)
      let message ← if compression = COMPRESS_GZIP then gz.decompress raw
        else .ok raw
      .ok (some (.error 0 message))
    else if messageType = MSG_SERVER_ACK then do
      let sequence ← readInt32 data 4
      .ok (some (.ack sequence))
    else if messageType = MSG_FULL_SERVER_RESPONSE then do
      let sequence ← readInt32 data 4
      let payloadSize ← readInt32 data 8
      let rawPayloadBuf := jsSlice data 12 (12 + payloadSize)
      let payloadBuf ← if compression = COMPRESS_GZIP then
          gz.decompress rawPayloadBuf
        else .ok rawPayloadBuf
      match jp payloadBuf with
      | none => .ok none
      | some payload =>
        .ok (some (.result sequence (extractText payload)
          (decide (sequence < 0) || decide (messageFlags = FLAG_NEG_SEQUENCE))))
    else .ok none

/-! The client state machine (`VolcengineClient`, source lines 250-505). -/

/-- Modelled from the spec: `ConnectionState` is declared in
`src/main/services/asr/types.ts`, which is not among the sources; the spec
(§3) and the client's use sites give exactly these four values. -/
inductive ConnectionState where
  | disconnected
  | connecting
  | connected
  | error
deriving DecidableEq

/-- Modelled from the spec: `ASRStatus` is declared in
`src/shared/types/asr.ts`, which is not among the sources; the spec (§6) and
the client's use sites give exactly these six values. -/
inductive ASRStatus where
  | idle
  | connecting
  | listening
  | processing
  | done
  | error
deriving DecidableEq

/-- The `type` field of `ASRResult` (`'interim' | 'final'`). -/
inductive ResultKind where
  | interim
  | final
deriving DecidableEq

/-- `ASRResult` as constructed by `handleMessage` (source lines 486-490). -/
structure ASRResult where
  type : ResultKind
  text : String
  isFinal : Bool
deriving DecidableEq

/-- The argument of an emitted `error` event: either
`new Error(response.error)` built from a server error frame's message bytes
(line 483), or one of the connect-phase errors (lines 316, 376, 385). -/
inductive ErrorPayload where
  | serverMessage (msg : List Nat)
  | connectionTimeout
  | transportError
  | upgradeFailed
deriving DecidableEq

/-- One event emitted by the client (`emit('result'|'status'|'error', ...)`). -/
inductive ClientEvent where
  | result (r : ASRResult)
  | status (s : ASRStatus)
  | error (e : ErrorPayload)
deriving DecidableEq

/-- `handleMessage` (source lines 478-504), returning the list of events the
client emits for one inbound message, in order.  `.error ()` is an uncaught
exception escaping from `parseResponse`. -/
def handleMessage (gz : GzipCodec) (jp : List Nat → Option Payload)
    (data : List Nat) : Except Unit (List ClientEvent) := do
  let response ← parseResponse gz jp data
  match response with
  | none => .ok []
  | some (.error _ msg) =>
    if msg = [] then .ok []
    else .ok [.error (.serverMessage msg), .status .error]
  | some (.result _ text isFinal) =>
    let r : ASRResult :=
      ⟨if isFinal then .final else .interim, text, isFinal⟩
    if isFinal then .ok [.result r, .status .done]
    else .ok [.result r]
  | some (.ack _) => .ok []

/-- The mutable fields of `VolcengineClient` that the protocol logic reads
(lines 252-255).  `wsOpen` is `this.ws !== null && this.ws.readyState ===
WebSocket.OPEN`; `timerActive` is whether the 30-second connect timer is
still armed (not yet fired or cleared). -/
structure ClientState where
  connectionState : ConnectionState
  sequence : Int
  wsOpen : Bool
  timerActive : Bool
deriving DecidableEq

/-- `get isConnected` (source lines 262-264). -/
def isConnected (st : ClientState) : Bool :=
  decide (st.connectionState = .connected) && st.wsOpen

/-- The connect timeout of source line 324, in milliseconds. -/
def connectionTimeoutMs : Nat := 30000

/-- The synchronous part of `connect()` before any socket event (source
lines 270-303): when already connected it warns and does nothing; otherwise
`reset()`, state := connecting, a `connecting` status event, `sequence := 1`
(line 282) and a fresh, not-yet-open socket with the 30-second timer armed. -/
def connectStart (st : ClientState) : ClientState × List ClientEvent :=
  if isConnected st then (st, [])
  else ({ st with connectionState := .connecting,
                  sequence := 1,
                  wsOpen := false,
                  timerActive := true },
        [.status .connecting])

/-- The `ws.on('open')` handler (source lines 326-361): state := connected,
the init frame is built with the current sequence (1) and sent,
`sequence := 2`, a `listening` status event, the timer is cleared and the
connect promise resolves.  Returns (new state, frames sent, events). -/
def openHandler (gz : GzipCodec) (initJson : List Nat) (st : ClientState) :
    ClientState × List (List Nat) × List ClientEvent :=
  ({ st with connectionState := .connected,
             sequence := 2,
             wsOpen := true,
             timerActive := false },
   [buildInitRequest gz initJson st.sequence],
   [.status .listening])

/-- `sendAudio` (source lines 418-431): a warning-only no-op when not
connected; otherwise builds an audio frame with the current sequence,
increments the sequence and sends the frame.  Returns (new state, frames
sent, events). -/
def sendAudio (gz : GzipCodec) (st : ClientState) (chunk : List Nat) :
    ClientState × List (List Nat) × List ClientEvent :=
  if !isConnected st then (st, [], [])
  else ({ st with sequence := st.sequence + 1 },
        [buildAudioRequest gz chunk st.sequence false],
        [])

/-- `finishAudio` (source lines 433-447): a warning-only no-op when not
connected; otherwise emits a `processing` status and sends the terminating
frame — empty audio, current sequence negated — without touching the
sequence counter or the state. -/
def finishAudio (gz : GzipCodec) (st : ClientState) :
    ClientState × List (List Nat) × List ClientEvent :=
  if !isConnected st then (st, [], [])
  else (st,
        [buildAudioRequest gz [] st.sequence true],
        [.status .processing])

/-- How a pending `connect()` promise is settled by a socket event. -/
inductive PromiseOutcome where
  | resolved
  | rejectedTimeout
  | rejectedTransport
  | rejectedUpgrade
deriving DecidableEq

/-- The socket events the `connect()` handlers (source lines 314-407) react
to.  `timeoutFired` is the 30-second timer of line 314 firing;
`unexpectedResponseEnd` is the `'end'` of the body of an
`'unexpected-response'` (failed HTTP upgrade, lines 367-383). -/
inductive WsEvent where
  | open
  | message (data : List Nat)
  | wsError
  | unexpectedResponseEnd
  | close
  | timeoutFired

/-- One step of the socket-event handlers installed by `connect()` (source
lines 314-407), translated handler by handler.  Returns the new state, the
frames sent, the events emitted (in order) and how the pending promise is
settled, or `.error ()` when the handler throws (only possible for
`message`, via `parseResponse`). -/
def connectStep (gz : GzipCodec) (jp : List Nat → Option Payload)
    (initJson : List Nat) (st : ClientState) (ev : WsEvent) :
    Except Unit (ClientState × List (List Nat) × List ClientEvent ×
      Option PromiseOutcome) :=
  match ev with
  | .open =>
    -- lines 326-361
    let (st', frames, events) := openHandler gz initJson st
    .ok (st', frames, events, some .resolved)
  | .message data => do
    -- lines 363-365
    let events ← handleMessage gz jp data
    .ok (st, [], events, none)
  | .wsError =>
    -- lines 385-393: clearTimeout, always emit the error event, reject only
    -- while connecting; the connection state is left untouched.
    .ok ({ st with timerActive := false },
         [], [.error .transportError],
         if st.connectionState = .connecting then some .rejectedTransport
         else none)
  | .unexpectedResponseEnd =>
    -- lines 374-382: clearTimeout, state := error, error status then error
    -- event, reject.
    .ok ({ st with connectionState := .error, timerActive := false },
         [], [.status .error, .error .upgradeFailed],
         some .rejectedUpgrade)
  | .close =>
    -- lines 395-407: clearTimeout; unless already disconnected, state :=
    -- disconnected and an idle status.  The socket is no longer open.
    if st.connectionState = .disconnected then
      .ok ({ st with wsOpen := false, timerActive := false }, [], [], none)
    else
      .ok ({ st with connectionState := .disconnected,
                     wsOpen := false,
                     timerActive := false },
           [], [.status .idle], none)
  | .timeoutFired =>
    -- lines 314-324: only acts while the timer is armed and the state is
    -- still connecting: cleanup (socket closed), state := error, error
    -- status then error event, reject with the timeout error.
    if st.timerActive ∧ st.connectionState = .connecting then
      .ok ({ st with connectionState := .error,
                     wsOpen := false,
                     timerActive := false },
           [], [.status .error, .error .connectionTimeout],
           some .rejectedTimeout)
    else .ok (st, [], [], none)

/-! Helpers used only to state and check properties (not part of the
source): session traces, wire-field readers, and frames as an external
server would produce them. -/

/-- Runs `sendAudio` once per chunk, collecting the frames sent. -/
def sendAudioMany (gz : GzipCodec) (st : ClientState) :
    List (List Nat) → ClientState × List (List Nat)
  | [] => (st, [])
  | c :: cs =>
    let out := sendAudio gz st c
    let rest := sendAudioMany gz out.1 cs
    (rest.1, out.2.1 ++ rest.2)

/-- The frames placed on the wire by a session in which `connect()` succeeds
(socket opens), `sendAudio` is called once per element of `chunks`, and
`finishAudio()` is called: the init frame, the audio frames, then the
terminating frame. -/
def sessionFrames (gz : GzipCodec) (initJson : List Nat)
    (chunks : List (List Nat)) : List (List Nat) :=
  let st0 : ClientState := ⟨.disconnected, 0, false, false⟩
  let st1 := (connectStart st0).1
  let opened := openHandler gz initJson st1
  let audio := sendAudioMany gz opened.1 chunks
  let fin := finishAudio gz audio.1
  opened.2.1 ++ audio.2 ++ fin.2.1

/-- The sequence number a frame carries on the wire: the big-endian signed
32-bit integer at byte offset 4. -/
def wireSeq (frame : List Nat) : Int :=
  match readInt32 frame 4 with
  | .ok v => v
  | .error _ => 0

/-- The payload-byte extraction pipeline shared by the `ServerError` and
`FullServerResponse` branches of `parseResponse`: two 32-bit reads at
offsets 4 and 8, the slice `[12, 12+size)`, decompressed when the
compression nibble says gzip.  Used to state inversion lemmas. -/
def framePayloadBytes (gz : GzipCodec) (data : List Nat) :
    Except Unit (List Nat) := do
  let _ ← readInt32 data 4
  let size ← readInt32 data 8
  let raw := jsSlice data 12 (12 + size)
  if byteAt data 2 &&& 15 = COMPRESS_GZIP then gz.decompress raw
  else .ok raw

/-- The spec's text-extraction rule, written from the spec's words (§4.1):
"prefer `payload.result.text`; if absent/empty, fall back to concatenating
`payload.result.utterances[].text` in array order with no separator".
Compared against the code's `extractText`. -/
def specExtractedText (r : RecResult) (us : List Utterance) : String :=
  match r.text with
  | some t => if t = "" then String.join (us.map Utterance.text) else t
  | none => String.join (us.map Utterance.text)

/-- Modelled from the spec: a `ServerError` frame as the (external) server
produces it with an uncompressed message — header, 4 code bytes, message
size, message (spec §4.1).  The server encoder is not part of the
repository. -/
def serverErrorFrame (flags : Nat) (codeBytes msg : List Nat) : List Nat :=
  buildHeader MSG_SERVER_ERROR flags SERIAL_JSON COMPRESS_NONE
    ++ codeBytes ++ intToBytes msg.length ++ msg

/-- Modelled from the spec: a `ServerError` frame with a gzip-compressed
message (spec §4.1). -/
def serverErrorFrameGzip (gz : GzipCodec) (flags : Nat)
    (codeBytes msg : List Nat) : List Nat :=
  buildHeader MSG_SERVER_ERROR flags SERIAL_JSON COMPRESS_GZIP
    ++ codeBytes ++ intToBytes (gz.compress msg).length ++ gz.compress msg

/-- Modelled from the spec: a `FullServerResponse` frame with an
uncompressed JSON payload — header, sequence, payload size, payload
(spec §4.1). -/
def serverResponseFrame (flags : Nat) (sequence : Int)
    (payloadBytes : List Nat) : List Nat :=
  buildHeader MSG_FULL_SERVER_RESPONSE flags SERIAL_JSON COMPRESS_NONE
    ++ intToBytes sequence ++ intToBytes payloadBytes.length ++ payloadBytes

/-- A `JSON.parse` model that accepts every payload, for checks where the
JSON layer is irrelevant. -/
def jpAlways : List Nat → Option Payload :=
  fun _ => some ⟨some ⟨some "x", none⟩⟩

/-- A `JSON.parse` model for concrete checks: parses the two bytes `[5, 6]`
into a payload with empty `result.text` and two utterances. -/
def jpTest : List Nat → Option Payload :=
  fun b =>
    if b = [5, 6] then some ⟨some ⟨some "", some [⟨"he"⟩, ⟨"llo"⟩]⟩⟩
    else none

/-! Basic lemmas about the byte-level helpers. -/

theorem intToBytes_length (v : Int) : (intToBytes v).length = 4 := rfl

theorem intToBytes_readback (v : Int)
    (hlo : -2147483648 ≤ v) (hhi : v < 2147483648) :
    int32OfBytes (byteAt (intToBytes v) 0) (byteAt (intToBytes v) 1)
      (byteAt (intToBytes v) 2) (byteAt (intToBytes v) 3) = v := by
  simp only [intToBytes, byteAt, List.getD_cons_zero, List.getD_cons_succ,
    int32OfBytes]
  split <;> omega

theorem byteAt_add (data : List Nat) (off k : Nat) :
    byteAt data (off + k) = byteAt (data.drop off) k := by
  unfold byteAt
  rw [List.getD_eq_getD_get?, List.getD_eq_getD_get?, List.get?_eq_getElem?,
    List.get?_eq_getElem?, List.getElem?_drop]

theorem readInt32_append (pre rest : List Nat) (v : Int) (off : Nat)
    (hoff : off = pre.length)
    (hlo : -2147483648 ≤ v) (hhi : v < 2147483648) :
    readInt32 (pre ++ (intToBytes v ++ rest)) off = .ok v := by
  subst hoff
  have hdrop : (pre ++ (intToBytes v ++ rest)).drop pre.length =
      intToBytes v ++ rest := List.drop_left' rfl
  have h0 : byteAt (pre ++ (intToBytes v ++ rest)) pre.length =
      byteAt (intToBytes v ++ rest) 0 := by
    have := byteAt_add (pre ++ (intToBytes v ++ rest)) pre.length 0
    rwa [Nat.add_zero, hdrop] at this
  have h1 : byteAt (pre ++ (intToBytes v ++ rest)) (pre.length + 1) =
      byteAt (intToBytes v ++ rest) 1 := by
    rw [byteAt_add, hdrop]
  have h2 : byteAt (pre ++ (intToBytes v ++ rest)) (pre.length + 2) =
      byteAt (intToBytes v ++ rest) 2 := by
    rw [byteAt_add, hdrop]
  have h3 : byteAt (pre ++ (intToBytes v ++ rest)) (pre.length + 3) =
      byteAt (intToBytes v ++ rest) 3 := by
    rw [byteAt_add, hdrop]
  have hlen : pre.length + 4 ≤ (pre ++ (intToBytes v ++ rest)).length := by
    simp [intToBytes]
  have e : ∀ k, k < 4 → byteAt (intToBytes v ++ rest) k = byteAt (intToBytes v) k := by
    intro k hk
    unfold byteAt
    exact List.getD_append _ _ _ _ (by rw [intToBytes_length]; exact hk)
  unfold readInt32
  rw [if_pos hlen, h0, h1, h2, h3, e 0 (by omega), e 1 (by omega),
    e 2 (by omega), e 3 (by omega)]
  exact congrArg Except.ok (intToBytes_readback v hlo hhi)

theorem jsSlice_of_append (pre msg : List Nat) (hp : pre.length = 12) :
    jsSlice (pre ++ msg) 12 (12 + (msg.length : Int)) = msg := by
  simp only [jsSlice, List.length_append, hp]
  push_cast
  have hA : ¬((12 : Int) + (msg.length : Int) < 0) := by omega
  simp only [if_neg hA, min_self,
    min_eq_left (show (12 : Int) ≤ 12 + (msg.length : Int) by omega)]
  by_cases hm : msg = []
  · subst hm
    simp
  · rw [if_neg (by
      have : 0 < msg.length := List.length_pos.mpr hm
      omega)]
    have h1 : ((12 : Int)).toNat = 12 := rfl
    have h2 : ((12 : Int) + (msg.length : Int) - 12).toNat = msg.length := by
      omega
    rw [h1, h2, List.drop_left' hp, List.take_length]

theorem parseResponse_short (gz : GzipCodec) (jp : List Nat → Option Payload)
    (data : List Nat) (h : data.length < 4) :
    parseResponse gz jp data = .ok none := by
  simp only [parseResponse]
  rw [if_pos h]

theorem parseResponse_unknown (gz : GzipCodec) (jp : List Nat → Option Payload)
    (data : List Nat) (hlen : ¬ data.length < 4)
    (h15 : (byteAt data 1 >>> 4) &&& 15 ≠ MSG_SERVER_ERROR)
    (h11 : (byteAt data 1 >>> 4) &&& 15 ≠ MSG_SERVER_ACK)
    (h9 : (byteAt data 1 >>> 4) &&& 15 ≠ MSG_FULL_SERVER_RESPONSE) :
    parseResponse gz jp data = .ok none := by
  simp only [parseResponse]
  rw [if_neg hlen, if_neg h15, if_neg h11, if_neg h9]

theorem parseResponse_error_eq (gz : GzipCodec) (jp : List Nat → Option Payload)
    (data : List Nat) (hlen : ¬ data.length < 4)
    (ht : (byteAt data 1 >>> 4) &&& 15 = MSG_SERVER_ERROR) :
    parseResponse gz jp data =
      (framePayloadBytes gz data).bind
        (fun m => .ok (some (.error 0 m))) := by
  simp only [parseResponse, framePayloadBytes]
  rw [if_neg hlen, if_pos ht]
  cases h4 : readInt32 data 4 with
  | error e => simp [Bind.bind, Except.bind, h4]
  | ok s =>
    cases h8 : readInt32 data 8 with
    | error e => simp [Bind.bind, Except.bind, h4, h8]
    | ok z =>
      by_cases hc : byteAt data 2 &&& 15 = COMPRESS_GZIP
      · cases hd : gz.decompress (jsSlice data 12 (12 + z)) <;>
          simp [Bind.bind, Except.bind, h4, h8, hc, hd]
      · simp [Bind.bind, Except.bind, h4, h8, hc]

theorem parseResponse_ack_eq (gz : GzipCodec) (jp : List Nat → Option Payload)
    (data : List Nat) (hlen : ¬ data.length < 4)
    (h15 : (byteAt data 1 >>> 4) &&& 15 ≠ MSG_SERVER_ERROR)
    (ht : (byteAt data 1 >>> 4) &&& 15 = MSG_SERVER_ACK) :
    parseResponse gz jp data =
      (readInt32 data 4).bind (fun s => .ok (some (.ack s))) := by
  simp only [parseResponse]
  rw [if_neg hlen, if_neg h15, if_pos ht]
  cases h4 : readInt32 data 4 <;> simp [Bind.bind, Except.bind, h4]

theorem parseResponse_result_eq (gz : GzipCodec)
    (jp : List Nat → Option Payload) (data : List Nat)
    (hlen : ¬ data.length < 4)
    (h15 : (byteAt data 1 >>> 4) &&& 15 ≠ MSG_SERVER_ERROR)
    (h11 : (byteAt data 1 >>> 4) &&& 15 ≠ MSG_SERVER_ACK)
    (ht : (byteAt data 1 >>> 4) &&& 15 = MSG_FULL_SERVER_RESPONSE) :
    parseResponse gz jp data =
      (readInt32 data 4).bind (fun s =>
        (framePayloadBytes gz data).bind (fun pb =>
          match jp pb with
          | none => .ok none
          | some payload =>
            .ok (some (.result s (extractText payload)
              (decide (s < 0) ||
                decide (byteAt data 1 &&& 15 = FLAG_NEG_SEQUENCE)))))) := by
  simp only [parseResponse, framePayloadBytes]
  rw [if_neg hlen, if_neg h15, if_neg h11, if_pos ht]
  cases h4 : readInt32 data 4 with
  | error e => simp [Bind.bind, Except.bind, h4]
  | ok s =>
    cases h8 : readInt32 data 8 with
    | error e => simp [Bind.bind, Except.bind, h4, h8]
    | ok z =>
      by_cases hc : byteAt data 2 &&& 15 = COMPRESS_GZIP
      · cases hd : gz.decompress (jsSlice data 12 (12 + z)) <;>
          simp [Bind.bind, Except.bind, h4, h8, hc, hd]
      · simp [Bind.bind, Except.bind, h4, h8, hc]

theorem parseResponse_result_inv (gz : GzipCodec)
    (jp : List Nat → Option Payload) (data : List Nat) (s : Int)
    (txt : String) (fin : Bool)
    (h : parseResponse gz jp data = .ok (some (.result s txt fin))) :
    readInt32 data 4 = .ok s ∧
    (byteAt data 1 >>> 4) &&& 15 = MSG_FULL_SERVER_RESPONSE ∧
    fin = (decide (s < 0) ||
      decide (byteAt data 1 &&& 15 = FLAG_NEG_SEQUENCE)) ∧
    ∃ pb payload, framePayloadBytes gz data = .ok pb ∧
      jp pb = some payload ∧ txt = extractText payload := by
  by_cases hlen : data.length < 4
  · rw [parseResponse_short gz jp data hlen] at h
    simp at h
  by_cases h15 : (byteAt data 1 >>> 4) &&& 15 = MSG_SERVER_ERROR
  · rw [parseResponse_error_eq gz jp data hlen h15] at h
    cases hf : framePayloadBytes gz data <;>
      simp [hf, Bind.bind, Except.bind] at h
  by_cases h11 : (byteAt data 1 >>> 4) &&& 15 = MSG_SERVER_ACK
  · rw [parseResponse_ack_eq gz jp data hlen h15 h11] at h
    cases h4 : readInt32 data 4 <;>
      simp [h4, Bind.bind, Except.bind] at h
  by_cases h9 : (byteAt data 1 >>> 4) &&& 15 = MSG_FULL_SERVER_RESPONSE
  · rw [parseResponse_result_eq gz jp data hlen h15 h11 h9] at h
    cases h4 : readInt32 data 4 with
    | error e => simp [h4, Bind.bind, Except.bind] at h
    | ok s' =>
      cases hf : framePayloadBytes gz data with
      | error e => simp [h4, hf, Bind.bind, Except.bind] at h
      | ok pb =>
        cases hjp : jp pb with
        | none => simp [h4, hf, hjp, Bind.bind, Except.bind] at h
        | some payload =>
          simp [h4, hf, hjp, Bind.bind, Except.bind] at h
          obtain ⟨hs, htxt, hfin⟩ := h
          subst hs
          refine ⟨rfl, h9, ?_, pb, payload, rfl, hjp, ?_⟩
          · first
            | exact hfin
            | exact hfin.symm
          · first
            | exact htxt
            | exact htxt.symm
  · rw [parseResponse_unknown gz jp data hlen h15 h11 h9] at h
    simp at h

theorem parseResponse_error_inv (gz : GzipCodec)
    (jp : List Nat → Option Payload) (data : List Nat) (s : Int)
    (msg : List Nat)
    (h : parseResponse gz jp data = .ok (some (.error s msg))) :
    s = 0 ∧ (byteAt data 1 >>> 4) &&& 15 = MSG_SERVER_ERROR ∧
    framePayloadBytes gz data = .ok msg := by
  by_cases hlen : data.length < 4
  · rw [parseResponse_short gz jp data hlen] at h
    simp at h
  by_cases h15 : (byteAt data 1 >>> 4) &&& 15 = MSG_SERVER_ERROR
  · rw [parseResponse_error_eq gz jp data hlen h15] at h
    cases hf : framePayloadBytes gz data with
    | error e => simp [hf, Bind.bind, Except.bind] at h
    | ok m =>
      simp [hf, Bind.bind, Except.bind] at h
      obtain ⟨hs, hm⟩ := h
      subst hm
      refine ⟨?_, h15, rfl⟩
      first
      | exact hs
      | exact hs.symm
  by_cases h11 : (byteAt data 1 >>> 4) &&& 15 = MSG_SERVER_ACK
  · rw [parseResponse_ack_eq gz jp data hlen h15 h11] at h
    cases h4 : readInt32 data 4 <;>
      simp [h4, Bind.bind, Except.bind] at h
  by_cases h9 : (byteAt data 1 >>> 4) &&& 15 = MSG_FULL_SERVER_RESPONSE
  · rw [parseResponse_result_eq gz jp data hlen h15 h11 h9] at h
    cases h4 : readInt32 data 4 with
    | error e => simp [h4, Bind.bind, Except.bind] at h
    | ok s' =>
      cases hf : framePayloadBytes gz data with
      | error e => simp [h4, hf, Bind.bind, Except.bind] at h
      | ok pb =>
        cases hjp : jp pb with
        | none => simp [h4, hf, hjp, Bind.bind, Except.bind] at h
        | some payload => simp [h4, hf, hjp, Bind.bind, Except.bind] at h
  · rw [parseResponse_unknown gz jp data hlen h15 h11 h9] at h
    simp at h

theorem wireSeq_append (pre rest : List Nat) (v : Int) (hoff : 4 = pre.length)
    (hlo : -2147483648 ≤ v) (hhi : v < 2147483648) :
    wireSeq (pre ++ (intToBytes v ++ rest)) = v := by
  unfold wireSeq
  rw [readInt32_append pre rest v 4 hoff hlo hhi]

theorem wireSeq_buildInitRequest (gz : GzipCodec) (j : List Nat) (s : Int)
    (hlo : -2147483648 ≤ s) (hhi : s < 2147483648) :
    wireSeq (buildInitRequest gz j s) = s := by
  unfold buildInitRequest
  rw [List.append_assoc, List.append_assoc]
  exact wireSeq_append _ _ _ rfl hlo hhi

theorem wireSeq_buildAudioRequest (gz : GzipCodec) (audio : List Nat)
    (s : Int) (isLast : Bool)
    (hlo : -2147483647 ≤ s) (hhi : s ≤ 2147483647) :
    wireSeq (buildAudioRequest gz audio s isLast) =
      if isLast then -s else s := by
  cases isLast <;> simp only [buildAudioRequest, if_true, if_false,
    Bool.false_eq_true, Bool.true_eq_false, ite_true, ite_false] <;>
    rw [List.append_assoc, List.append_assoc] <;>
    exact wireSeq_append _ _ _ rfl (by omega) (by omega)

theorem isConnected_set_sequence (st : ClientState) (v : Int) :
    isConnected { st with sequence := v } = isConnected st := rfl

theorem sendAudioMany_nil (gz : GzipCodec) (st : ClientState) :
    sendAudioMany gz st [] = (st, []) := rfl

theorem sendAudioMany_cons (gz : GzipCodec) (st : ClientState)
    (c : List Nat) (cs : List (List Nat)) :
    sendAudioMany gz st (c :: cs) =
      ((sendAudioMany gz (sendAudio gz st c).1 cs).1,
       (sendAudio gz st c).2.1 ++
         (sendAudioMany gz (sendAudio gz st c).1 cs).2) := rfl

theorem sendAudio_connected (gz : GzipCodec) (st : ClientState)
    (c : List Nat) (hconn : isConnected st = true) :
    sendAudio gz st c =
      ({ st with sequence := st.sequence + 1 },
       [buildAudioRequest gz c st.sequence false], []) := by
  unfold sendAudio
  rw [hconn]
  rfl

theorem sendAudioMany_spec (gz : GzipCodec) (chunks : List (List Nat)) :
    ∀ st : ClientState, isConnected st = true →
    0 ≤ st.sequence → st.sequence + chunks.length ≤ 2147483647 →
    (sendAudioMany gz st chunks).1 =
      { st with sequence := st.sequence + chunks.length } ∧
    (sendAudioMany gz st chunks).2.map wireSeq =
      (List.range chunks.length).map
        (fun i : Nat => st.sequence + (i : Int)) := by
  induction chunks with
  | nil =>
    intro st hconn hlo hhi
    constructor
    · simp [sendAudioMany_nil]
    · simp [sendAudioMany_nil]
  | cons c cs ih =>
    intro st hconn hlo hhi
    have hsend := sendAudio_connected gz st c hconn
    have hconn' : isConnected { st with sequence := st.sequence + 1 } = true := by
      rw [isConnected_set_sequence]
      exact hconn
    obtain ⟨ih1, ih2⟩ := ih { st with sequence := st.sequence + 1 } hconn'
      (by simp; omega)
      (by simp only [List.length_cons] at hhi; push_cast at hhi ⊢; omega)
    constructor
    · rw [sendAudioMany_cons, hsend]
      simp only []
      rw [ih1]
      simp only [List.length_cons]
      congr 1
      push_cast
      omega
    · rw [sendAudioMany_cons, hsend]
      simp only [List.map_append, List.map_cons, List.map_nil,
        List.length_cons, List.range_succ_eq_map, List.map_map]
      rw [ih2]
      have hws : wireSeq (buildAudioRequest gz c st.sequence false) =
          st.sequence := by
        have := wireSeq_buildAudioRequest gz c st.sequence false
          (by omega) (by omega)
        simpa using this
      rw [hws]
      have hfun : ((fun i : Nat => st.sequence + (i : Int)) ∘ Nat.succ) =
          (fun i : Nat => st.sequence + 1 + (i : Int)) := by
        funext i
        simp [Function.comp]
        ring
      rw [hfun]
      simp

theorem finishAudio_connected (gz : GzipCodec) (st : ClientState)
    (hconn : isConnected st = true) :
    finishAudio gz st =
      (st, [buildAudioRequest gz [] st.sequence true],
       [.status .processing]) := by
  unfold finishAudio
  rw [hconn]
  rfl

theorem readInt32_ok_of_length (data : List Nat) (off : Nat)
    (h : off + 4 ≤ data.length) :
    readInt32 data off = .ok (int32OfBytes (byteAt data off)
      (byteAt data (off + 1)) (byteAt data (off + 2))
      (byteAt data (off + 3))) := by
  unfold readInt32
  rw [if_pos h]

theorem framePayloadBytes_uncompressed (gz : GzipCodec) (b0 b1 b2 b3 : Nat)
    (mid payload : List Nat) (hc : mid.length = 4)
    (hcomp : b2 &&& 15 ≠ COMPRESS_GZIP)
    (hm : (payload.length : Int) < 2147483648) :
    framePayloadBytes gz ([b0, b1, b2, b3] ++
      (mid ++ (intToBytes payload.length ++ payload))) = .ok payload := by
  set data := [b0, b1, b2, b3] ++ (mid ++ (intToBytes payload.length ++ payload))
    with hdata
  have hlen : data.length = 12 + payload.length := by
    simp [hdata, hc, intToBytes_length]
    omega
  have h4 : readInt32 data 4 = .ok (int32OfBytes (byteAt data 4)
      (byteAt data 5) (byteAt data 6) (byteAt data 7)) :=
    readInt32_ok_of_length data 4 (by omega)
  have h8 : readInt32 data 8 = .ok (payload.length : Int) := by
    have hshape : data = ([b0, b1, b2, b3] ++ mid) ++
        (intToBytes payload.length ++ payload) := by
      simp [hdata]
    rw [hshape]
    exact readInt32_append _ _ _ 8 (by simp [hc]) (by omega) (by omega)
  have hslice : jsSlice data 12 (12 + (payload.length : Int)) = payload := by
    have hshape : data = (([b0, b1, b2, b3] ++ mid) ++
        intToBytes payload.length) ++ payload := by
      simp [hdata]
    rw [hshape]
    exact jsSlice_of_append _ _ (by simp [hc, intToBytes_length])
  have hb2 : byteAt data 2 = b2 := by
    simp [hdata, byteAt]
  unfold framePayloadBytes
  rw [h4, h8]
  simp only [Bind.bind, Except.bind, hb2, hslice]
  rw [if_neg hcomp]

theorem framePayloadBytes_gzip (gz : GzipCodec) (b0 b1 b2 b3 : Nat)
    (mid payload : List Nat) (hc : mid.length = 4)
    (hcomp : b2 &&& 15 = COMPRESS_GZIP)
    (hm : ((gz.compress payload).length : Int) < 2147483648) :
    framePayloadBytes gz ([b0, b1, b2, b3] ++
      (mid ++ (intToBytes (gz.compress payload).length ++
        gz.compress payload))) = .ok payload := by
  set data := [b0, b1, b2, b3] ++ (mid ++
    (intToBytes (gz.compress payload).length ++ gz.compress payload))
    with hdata
  have hlen : data.length = 12 + (gz.compress payload).length := by
    simp [hdata, hc, intToBytes_length]
    omega
  have h4 : readInt32 data 4 = .ok (int32OfBytes (byteAt data 4)
      (byteAt data 5) (byteAt data 6) (byteAt data 7)) :=
    readInt32_ok_of_length data 4 (by omega)
  have h8 : readInt32 data 8 = .ok ((gz.compress payload).length : Int) := by
    have hshape : data = ([b0, b1, b2, b3] ++ mid) ++
        (intToBytes (gz.compress payload).length ++ gz.compress payload) := by
      simp [hdata]
    rw [hshape]
    exact readInt32_append _ _ _ 8 (by simp [hc]) (by omega) (by omega)
  have hslice : jsSlice data 12 (12 + ((gz.compress payload).length : Int)) =
      gz.compress payload := by
    have hshape : data = (([b0, b1, b2, b3] ++ mid) ++
        intToBytes (gz.compress payload).length) ++ gz.compress payload := by
      simp [hdata]
    rw [hshape]
    exact jsSlice_of_append _ _ (by simp [hc, intToBytes_length])
  have hb2 : byteAt data 2 = b2 := by
    simp [hdata, byteAt]
  unfold framePayloadBytes
  rw [h4, h8]
  simp only [Bind.bind, Except.bind, hb2, hslice]
  rw [if_pos hcomp, gz.roundtrip]

theorem extractText_spec (payload : Payload) (r : RecResult)
    (us : List Utterance) (hr : payload.result = some r)
    (hus : r.utterances = some us) :
    extractText payload = specExtractedText r us := by
  unfold extractText specExtractedText
  rw [hr]
  cases ht : r.text with
  | none => simp [ht, hus]
  | some t =>
    by_cases h : t = "" <;> simp [ht, h, hus]

/-! Claim theorems. -/

/-- C1: in a session where `connect()` succeeds and then `sendAudio` is
called once per chunk followed by `finishAudio()`, the sequence numbers
placed on the wire are exactly `1` for the init frame, then `2, …, N+1`
for the `N` audio frames, then `-(N+2)` for the terminating frame.  (The
bound keeps every sequence value inside the signed 32-bit range that
`writeInt32BE` accepts; the spec assumes a session's frame count stays well
under `2^31`.) -/
theorem session_wire_sequence_numbers (gz : GzipCodec) (initJson : List Nat)
    (chunks : List (List Nat))
    (hN : (chunks.length : Int) + 2 ≤ 2147483647) :
    (sessionFrames gz initJson chunks).map wireSeq =
      1 :: ((List.range chunks.length).map (fun i : Nat => (i : Int) + 2) ++
        [-((chunks.length : Int) + 2)]) := by
  have hstart : sessionFrames gz initJson chunks =
      [buildInitRequest gz initJson 1] ++
        ((sendAudioMany gz ⟨.connected, 2, true, false⟩ chunks).2 ++
          (finishAudio gz
            (sendAudioMany gz ⟨.connected, 2, true, false⟩ chunks).1).2.1) := by
    rfl
  obtain ⟨hst, hfr⟩ := sendAudioMany_spec gz chunks
    ⟨.connected, 2, true, false⟩ (by decide) (by norm_num)
    (by push_cast at hN ⊢; omega)
  have hstate : ({ ClientState.mk .connected 2 true false with
      sequence := (2 : Int) + (chunks.length : Int) } : ClientState) =
      ⟨.connected, 2 + (chunks.length : Int), true, false⟩ := rfl
  rw [hstart, List.map_append, List.map_append, hfr, hst, hstate,
    finishAudio_connected gz
      ⟨.connected, 2 + (chunks.length : Int), true, false⟩ rfl]
  have hlast : wireSeq (buildAudioRequest gz []
      (2 + (chunks.length : Int)) true) = -(2 + (chunks.length : Int)) := by
    have := wireSeq_buildAudioRequest gz []
      (2 + (chunks.length : Int)) true (by omega) (by omega)
    simpa using this
  have hinit : wireSeq (buildInitRequest gz initJson 1) = 1 :=
    wireSeq_buildInitRequest gz initJson 1 (by norm_num) (by norm_num)
  simp only [List.map_cons, List.map_nil, hinit, hlast]
  have hfun : (fun i : Nat => (2 : Int) + (i : Int)) =
      (fun i : Nat => (i : Int) + 2) := by
    funext i
    ring
  rw [hfun] at *
  simp [hfr]
  omega

/-- C8: `parseResponse` applied to any buffer shorter than 4 bytes returns
`null` without throwing, and applied to any buffer whose messageType field
is not one of the recognized server types (`FullServerResponse`,
`ServerAck`, `ServerError`) returns `null`. -/
theorem parseResponse_malformed_null (gz : GzipCodec)
    (jp : List Nat → Option Payload) (data : List Nat)
    (h : data.length < 4 ∨
      ((byteAt data 1 >>> 4) &&& 15 ≠ MSG_FULL_SERVER_RESPONSE ∧
       (byteAt data 1 >>> 4) &&& 15 ≠ MSG_SERVER_ACK ∧
       (byteAt data 1 >>> 4) &&& 15 ≠ MSG_SERVER_ERROR)) :
    parseResponse gz jp data = .ok none := by
  rcases h with h | ⟨h9, h11, h15⟩
  · exact parseResponse_short gz jp data h
  · by_cases hlen : data.length < 4
    · exact parseResponse_short gz jp data hlen
    · exact parseResponse_unknown gz jp data hlen h15 h11 h9

/-- Witness for C8: a 2-byte buffer and a 4-byte buffer with messageType 0. -/
theorem parseResponse_malformed_null_witness :
    parseResponse modelGzip jpAlways [1, 2] = .ok none ∧
    parseResponse modelGzip jpAlways [17, 0, 16, 0] = .ok none :=
  ⟨parseResponse_malformed_null modelGzip jpAlways [1, 2]
     (Or.inl (by norm_num)),
   parseResponse_malformed_null modelGzip jpAlways [17, 0, 16, 0]
     (Or.inr (by decide))⟩

/-- C9: `sendAudio` and `finishAudio` while not connected are no-ops: they
never throw (total functions returning normally), send no frame, emit no
event, and leave the whole client state — connection state and sequence
counter included — unchanged. -/
theorem sendAudio_finishAudio_not_connected (gz : GzipCodec)
    (st : ClientState) (chunk : List Nat) (h : isConnected st = false) :
    sendAudio gz st chunk = (st, [], []) ∧
    finishAudio gz st = (st, [], []) := by
  unfold sendAudio finishAudio
  rw [h]
  exact ⟨rfl, rfl⟩

/-- Witness for C9: a disconnected client with sequence 5. -/
theorem sendAudio_finishAudio_not_connected_witness :
    sendAudio modelGzip ⟨.disconnected, 5, false, false⟩ [1, 2, 3] =
      (⟨.disconnected, 5, false, false⟩, [], []) ∧
    finishAudio modelGzip ⟨.disconnected, 5, false, false⟩ =
      (⟨.disconnected, 5, false, false⟩, [], []) :=
  sendAudio_finishAudio_not_connected modelGzip
    ⟨.disconnected, 5, false, false⟩ [1, 2, 3] (by decide)

/-- C3: every decoded `FullServerResponse` result has `isFinal = true`
exactly when the frame's sequence number (the signed 32-bit value at offset
4) is negative or its message-type flags equal `NegativeSequence`; every
other combination yields `isFinal = false`. -/
theorem result_isFinal_characterization (gz : GzipCodec)
    (jp : List Nat → Option Payload) (data : List Nat) (s : Int)
    (txt : String) (fin : Bool)
    (h : parseResponse gz jp data = .ok (some (.result s txt fin))) :
    readInt32 data 4 = .ok s ∧
    (fin = true ↔ (s < 0 ∨ byteAt data 1 &&& 15 = FLAG_NEG_SEQUENCE)) := by
  obtain ⟨h4, _, hfin, _⟩ := parseResponse_result_inv gz jp data s txt fin h
  refine ⟨h4, ?_⟩
  rw [hfin]
  simp

/-- Witness for C3: a concrete response frame with sequence `-7` and flags
`0` decodes with `isFinal = true`. -/
theorem result_isFinal_characterization_witness :
    readInt32 (serverResponseFrame 0 (-7) [5, 6]) 4 = .ok (-7) ∧
    ((true : Bool) = true ↔ ((-7 : Int) < 0 ∨
      byteAt (serverResponseFrame 0 (-7) [5, 6]) 1 &&& 15 =
        FLAG_NEG_SEQUENCE)) :=
  result_isFinal_characterization modelGzip jpTest
    (serverResponseFrame 0 (-7) [5, 6]) (-7) "hello" true rfl

/-- C5: for every decoded `FullServerResponse` whose JSON payload carries a
`result` object with an `utterances` array, the decoded text follows the
spec's extraction rule — `result.text` when non-empty, otherwise the
concatenation of `result.utterances[].text` in array order with no
separator. -/
theorem result_text_extraction (gz : GzipCodec)
    (jp : List Nat → Option Payload) (data : List Nat) (s : Int)
    (txt : String) (fin : Bool) (pb : List Nat) (payload : Payload)
    (r : RecResult) (us : List Utterance)
    (hparse : parseResponse gz jp data = .ok (some (.result s txt fin)))
    (hpb : framePayloadBytes gz data = .ok pb)
    (hjp : jp pb = some payload)
    (hr : payload.result = some r)
    (hus : r.utterances = some us) :
    txt = specExtractedText r us := by
  obtain ⟨_, _, _, pb', payload', hpb', hjp', htxt⟩ :=
    parseResponse_result_inv gz jp data s txt fin hparse
  rw [hpb] at hpb'
  obtain rfl : pb = pb' := Except.ok.inj hpb'
  rw [hjp] at hjp'
  obtain rfl : payload = payload' := Option.some.inj hjp'
  rw [htxt]
  exact extractText_spec payload r us hr hus

/-- Witness for C5: a concrete frame whose payload has empty `result.text`
and utterances `"he"`, `"llo"` decodes to `"hello"`. -/
theorem result_text_extraction_witness :
    "hello" = specExtractedText ⟨some "", some [⟨"he"⟩, ⟨"llo"⟩]⟩
      [⟨"he"⟩, ⟨"llo"⟩] :=
  result_text_extraction modelGzip jpTest
    (serverResponseFrame 0 3 [5, 6]) 3 "hello" false [5, 6]
    ⟨some ⟨some "", some [⟨"he"⟩, ⟨"llo"⟩]⟩⟩ ⟨some "", some [⟨"he"⟩, ⟨"llo"⟩]⟩
    [⟨"he"⟩, ⟨"llo"⟩] rfl
    (by
      have := framePayloadBytes_uncompressed modelGzip 17 144 16 0
        (intToBytes 3) [5, 6] rfl (by decide) (by norm_num)
      simpa [serverResponseFrame, buildHeader, MSG_FULL_SERVER_RESPONSE,
        SERIAL_JSON, COMPRESS_NONE, VERSION, HEADER_SIZE] using this)
    rfl rfl rfl

/-- C10: a decoded `ServerError` frame — with any 4 code bytes at offset 4,
compressed or not — parses to a result carrying only the message bytes,
with sequence 0; the events emitted for it carry only that message; and
every parse of an error frame has sequence 0.  The code bytes never appear
in the parsed result or in any event. -/
theorem serverError_parsed_fields (gz : GzipCodec)
    (jp : List Nat → Option Payload) (flags : Nat)
    (codeBytes msg : List Nat) (hf : flags < 16) (hc : codeBytes.length = 4)
    (hm : (msg.length : Int) < 2147483648)
    (hmz : ((gz.compress msg).length : Int) < 2147483648) :
    parseResponse gz jp (serverErrorFrame flags codeBytes msg) =
      .ok (some (.error 0 msg)) ∧
    parseResponse gz jp (serverErrorFrameGzip gz flags codeBytes msg) =
      .ok (some (.error 0 msg)) ∧
    handleMessage gz jp (serverErrorFrame flags codeBytes msg) =
      .ok (if msg = [] then []
        else [.error (.serverMessage msg), .status .error]) ∧
    (∀ data s m, parseResponse gz jp data = .ok (some (.error s m)) →
      s = 0) := by
  have htype : ((MSG_SERVER_ERROR <<< 4) ||| flags) >>> 4 &&& 15 =
      MSG_SERVER_ERROR := by
    unfold MSG_SERVER_ERROR
    interval_cases flags <;> decide
  have hshape : serverErrorFrame flags codeBytes msg =
      [(VERSION <<< 4) ||| HEADER_SIZE, (MSG_SERVER_ERROR <<< 4) ||| flags,
        (SERIAL_JSON <<< 4) ||| COMPRESS_NONE, 0] ++
      (codeBytes ++ (intToBytes msg.length ++ msg)) := by
    simp [serverErrorFrame, buildHeader, List.append_assoc]
  have hshapeZ : serverErrorFrameGzip gz flags codeBytes msg =
      [(VERSION <<< 4) ||| HEADER_SIZE, (MSG_SERVER_ERROR <<< 4) ||| flags,
        (SERIAL_JSON <<< 4) ||| COMPRESS_GZIP, 0] ++
      (codeBytes ++ (intToBytes (gz.compress msg).length ++
        gz.compress msg)) := by
    simp [serverErrorFrameGzip, buildHeader, List.append_assoc]
  have hbyte1 : byteAt (serverErrorFrame flags codeBytes msg) 1 =
      (MSG_SERVER_ERROR <<< 4) ||| flags := by
    rw [hshape]
    simp [byteAt]
  have hbyte1Z : byteAt (serverErrorFrameGzip gz flags codeBytes msg) 1 =
      (MSG_SERVER_ERROR <<< 4) ||| flags := by
    rw [hshapeZ]
    simp [byteAt]
  have hlen : ¬ (serverErrorFrame flags codeBytes msg).length < 4 := by
    rw [hshape]
    simp
  have hlenZ : ¬ (serverErrorFrameGzip gz flags codeBytes msg).length < 4 := by
    rw [hshapeZ]
    simp
  have hfp : framePayloadBytes gz (serverErrorFrame flags codeBytes msg) =
      .ok msg := by
    rw [hshape]
    exact framePayloadBytes_uncompressed gz _ _ _ _ codeBytes msg hc
      (by decide) hm
  have hfpZ : framePayloadBytes gz
      (serverErrorFrameGzip gz flags codeBytes msg) = .ok msg := by
    rw [hshapeZ]
    exact framePayloadBytes_gzip gz _ _ _ _ codeBytes msg hc (by decide) hmz
  have hparse : parseResponse gz jp (serverErrorFrame flags codeBytes msg) =
      .ok (some (.error 0 msg)) := by
    rw [parseResponse_error_eq gz jp _ hlen (by rw [hbyte1]; exact htype),
      hfp]
    rfl
  have hparseZ : parseResponse gz jp
      (serverErrorFrameGzip gz flags codeBytes msg) =
      .ok (some (.error 0 msg)) := by
    rw [parseResponse_error_eq gz jp _ hlenZ (by rw [hbyte1Z]; exact htype),
      hfpZ]
    rfl
  refine ⟨hparse, hparseZ, ?_, ?_⟩
  · unfold handleMessage
    rw [hparse]
    simp only [Bind.bind, Except.bind]
    split <;> rfl
  · intro data s m h
    exact (parseResponse_error_inv gz jp data s m h).1

/-- Witness for C10: code bytes `[0,1,2,3]` and message `"hi"`
(bytes `[104, 105]`). -/
theorem serverError_parsed_fields_witness :
    parseResponse modelGzip jpAlways (serverErrorFrame 0 [0, 1, 2, 3]
      [104, 105]) = .ok (some (.error 0 [104, 105])) ∧
    parseResponse modelGzip jpAlways (serverErrorFrameGzip modelGzip 0
      [0, 1, 2, 3] [104, 105]) = .ok (some (.error 0 [104, 105])) ∧
    handleMessage modelGzip jpAlways (serverErrorFrame 0 [0, 1, 2, 3]
      [104, 105]) = .ok (if ([104, 105] : List Nat) = [] then []
        else [.error (.serverMessage [104, 105]), .status .error]) ∧
    (∀ data s m, parseResponse modelGzip jpAlways data =
      .ok (some (.error s m)) → s = 0) :=
  serverError_parsed_fields modelGzip jpAlways 0 [0, 1, 2, 3] [104, 105]
    (by norm_num) rfl (by norm_num) (by decide)

/-- Counterexample for C7: a `ServerError` frame with an empty message
decodes to an error result, yet `handleMessage` emits no event at all —
`response.error` is the empty string, which is falsy, so the dispatch of
lines 482-484 is skipped. -/
theorem serverError_empty_message_counterexample :
    parseResponse modelGzip jpAlways (serverErrorFrame 0 [0, 0, 0, 0] []) =
      .ok (some (.error 0 [])) ∧
    handleMessage modelGzip jpAlways (serverErrorFrame 0 [0, 0, 0, 0] []) =
      .ok [] :=
  ⟨rfl, rfl⟩

/-- C7 (amended): every inbound frame that decodes to a server error with a
non-empty message makes the client emit an error event followed by an error
status; a server error with an empty message emits nothing. -/
theorem serverError_events (gz : GzipCodec) (jp : List Nat → Option Payload)
    (data : List Nat) (s : Int) (msg : List Nat)
    (h : parseResponse gz jp data = .ok (some (.error s msg))) :
    handleMessage gz jp data =
      .ok (if msg = [] then []
        else [.error (.serverMessage msg), .status .error]) := by
  unfold handleMessage
  rw [h]
  simp only [Bind.bind, Except.bind]
  split <;> rfl

/-- Witness for C7 (amended): the message `"hi"` produces the error event
then the error status. -/
theorem serverError_events_witness :
    handleMessage modelGzip jpAlways (serverErrorFrame 1 [9, 9, 9, 9]
      [104, 105]) = .ok (if ([104, 105] : List Nat) = [] then []
        else [.error (.serverMessage [104, 105]), .status .error]) :=
  serverError_events modelGzip jpAlways
    (serverErrorFrame 1 [9, 9, 9, 9] [104, 105]) 0 [104, 105] rfl

/-- Counterexample for C4: decoding can throw.  A 4-byte frame whose
messageType is `ServerAck` (`0xB0` in byte 1) reaches
`bytesToInt(data, 4)`, i.e. `readInt32BE(4)` on a 4-byte buffer, which
throws `ERR_OUT_OF_RANGE`; the exception escapes `parseResponse` and
`handleMessage` (nothing catches it), so a corrupt frame can abort the
session. -/
theorem decode_throws_counterexample :
    parseResponse modelGzip jpAlways [17, 176, 16, 0] = .error () ∧
    handleMessage modelGzip jpAlways [17, 176, 16, 0] = .error () :=
  ⟨rfl, rfl⟩

/-- C4 (amended): the decode failures `parseResponse` itself detects — a
buffer shorter than 4 bytes, an unrecognized message type, or a
`FullServerResponse` whose payload fails JSON parsing — return `null` and
are silently ignored by `handleMessage`: no event, no exception.  (Other
corrupt frames can instead throw, see the counterexample.) -/
theorem decode_failures_silently_ignored (gz : GzipCodec)
    (jp : List Nat → Option Payload) (data : List Nat)
    (h : data.length < 4 ∨
      ((byteAt data 1 >>> 4) &&& 15 ≠ MSG_FULL_SERVER_RESPONSE ∧
       (byteAt data 1 >>> 4) &&& 15 ≠ MSG_SERVER_ACK ∧
       (byteAt data 1 >>> 4) &&& 15 ≠ MSG_SERVER_ERROR) ∨
      ((byteAt data 1 >>> 4) &&& 15 = MSG_FULL_SERVER_RESPONSE ∧
       ¬ data.length < 4 ∧
       ∃ pb, framePayloadBytes gz data = .ok pb ∧ jp pb = none)) :
    handleMessage gz jp data = .ok [] := by
  rcases h with h | ⟨h9, h11, h15⟩ | ⟨h9, hlen, pb, hpb, hjp⟩
  · unfold handleMessage
    rw [parseResponse_short gz jp data h]
    rfl
  · by_cases hlen : data.length < 4
    · unfold handleMessage
      rw [parseResponse_short gz jp data hlen]
      rfl
    · unfold handleMessage
      rw [parseResponse_unknown gz jp data hlen h15 h11 h9]
      rfl
  · have h15 : (byteAt data 1 >>> 4) &&& 15 ≠ MSG_SERVER_ERROR := by
      rw [h9]
      decide
    have h11 : (byteAt data 1 >>> 4) &&& 15 ≠ MSG_SERVER_ACK := by
      rw [h9]
      decide
    unfold handleMessage
    rw [parseResponse_result_eq gz jp data hlen h15 h11 h9]
    cases h4 : readInt32 data 4 with
    | error e =>
      exfalso
      unfold framePayloadBytes at hpb
      rw [h4] at hpb
      simp [Bind.bind, Except.bind] at hpb
    | ok s =>
      rw [hpb]
      simp [Bind.bind, Except.bind, hjp]

/-- Witness for C4 (amended): a 1-byte buffer is dropped with no events. -/
theorem decode_failures_silently_ignored_witness :
    handleMessage modelGzip jpAlways [1] = .ok [] :=
  decode_failures_silently_ignored modelGzip jpAlways [1]
    (Or.inl (by norm_num))

/-- Counterexample for C2: `parseResponse` does not invert the client
encoders.  On the frames built by `buildInitRequest` (messageType
`FullClientRequest`) and `buildAudioRequest` (messageType
`AudioOnlyRequest`) it returns `null` — no semantic field is reproduced —
because it only recognizes the three server message types. -/
theorem encoder_roundtrip_counterexample :
    parseResponse modelGzip jpAlways (buildInitRequest modelGzip [123, 125] 1)
      = .ok none ∧
    parseResponse modelGzip jpAlways
      (buildAudioRequest modelGzip [7, 8] 2 false) = .ok none :=
  ⟨rfl, rfl⟩

/-- C2 (amended): decoding a client-encoded frame with `parseResponse`
always yields `null` (the encoders emit client message types, which the
decoder treats as unknown), so no decoder round-trip exists in the code;
the encoded bytes do carry the semantic fields at the protocol offsets —
message type in the high nibble of byte 1, the (negated when final)
sequence as a signed 32-bit integer at offset 4, and the payload,
recoverable by gzip decompression, from offset 12. -/
theorem client_frames_decode (gz : GzipCodec)
    (jp : List Nat → Option Payload) (jsonBytes audio : List Nat) (s : Int)
    (isLast : Bool) (hlo : -2147483647 ≤ s) (hhi : s ≤ 2147483647) :
    parseResponse gz jp (buildInitRequest gz jsonBytes s) = .ok none ∧
    parseResponse gz jp (buildAudioRequest gz audio s isLast) = .ok none ∧
    (byteAt (buildInitRequest gz jsonBytes s) 1 >>> 4) &&& 15 =
      MSG_FULL_CLIENT_REQUEST ∧
    (byteAt (buildAudioRequest gz audio s isLast) 1 >>> 4) &&& 15 =
      MSG_AUDIO_ONLY_REQUEST ∧
    wireSeq (buildInitRequest gz jsonBytes s) = s ∧
    wireSeq (buildAudioRequest gz audio s isLast) =
      (if isLast then -s else s) ∧
    gz.decompress ((buildInitRequest gz jsonBytes s).drop 12) =
      .ok jsonBytes ∧
    gz.decompress ((buildAudioRequest gz audio s isLast).drop 12) =
      .ok audio := by
  have hbyte1I : byteAt (buildInitRequest gz jsonBytes s) 1 =
      (MSG_FULL_CLIENT_REQUEST <<< 4) ||| FLAG_POS_SEQUENCE := by
    simp [buildInitRequest, buildHeader, byteAt, List.append_assoc]
  have hbyte1A : byteAt (buildAudioRequest gz audio s isLast) 1 =
      (MSG_AUDIO_ONLY_REQUEST <<< 4) |||
        (if isLast then FLAG_NEG_SEQUENCE else FLAG_POS_SEQUENCE) := by
    cases isLast <;>
      simp [buildAudioRequest, buildHeader, byteAt, List.append_assoc]
  have hlenI : ¬ (buildInitRequest gz jsonBytes s).length < 4 := by
    simp [buildInitRequest, buildHeader, intToBytes]
  have hlenA : ¬ (buildAudioRequest gz audio s isLast).length < 4 := by
    cases isLast <;> simp [buildAudioRequest, buildHeader, intToBytes]
  have htypeI : (byteAt (buildInitRequest gz jsonBytes s) 1 >>> 4) &&& 15 =
      MSG_FULL_CLIENT_REQUEST := by
    rw [hbyte1I]
    decide
  have htypeA : (byteAt (buildAudioRequest gz audio s isLast) 1 >>> 4) &&&
      15 = MSG_AUDIO_ONLY_REQUEST := by
    rw [hbyte1A]
    cases isLast <;> decide
  have hdropI : (buildInitRequest gz jsonBytes s).drop 12 =
      gz.compress jsonBytes := by
    apply List.drop_left'
    simp [buildInitRequest, buildHeader, intToBytes_length]
  have hdropA : (buildAudioRequest gz audio s isLast).drop 12 =
      gz.compress audio := by
    apply List.drop_left'
    cases isLast <;>
      simp [buildAudioRequest, buildHeader, intToBytes_length]
  refine ⟨?_, ?_, htypeI, htypeA, ?_, ?_, ?_, ?_⟩
  · exact parseResponse_unknown gz jp _ hlenI (by rw [htypeI]; decide)
      (by rw [htypeI]; decide) (by rw [htypeI]; decide)
  · exact parseResponse_unknown gz jp _ hlenA (by rw [htypeA]; decide)
      (by rw [htypeA]; decide) (by rw [htypeA]; decide)
  · exact wireSeq_buildInitRequest gz jsonBytes s (by omega) (by omega)
  · exact wireSeq_buildAudioRequest gz audio s isLast hlo hhi
  · rw [hdropI, gz.roundtrip]
  · rw [hdropA, gz.roundtrip]

/-- Witness for C2 (amended): frames with sequence 5, the audio frame
final. -/
theorem client_frames_decode_witness :
    parseResponse modelGzip jpAlways (buildInitRequest modelGzip [123, 125] 5)
      = .ok none ∧
    parseResponse modelGzip jpAlways
      (buildAudioRequest modelGzip [7] 5 true) = .ok none ∧
    (byteAt (buildInitRequest modelGzip [123, 125] 5) 1 >>> 4) &&& 15 =
      MSG_FULL_CLIENT_REQUEST ∧
    (byteAt (buildAudioRequest modelGzip [7] 5 true) 1 >>> 4) &&& 15 =
      MSG_AUDIO_ONLY_REQUEST ∧
    wireSeq (buildInitRequest modelGzip [123, 125] 5) = 5 ∧
    wireSeq (buildAudioRequest modelGzip [7] 5 true) =
      (if (true : Bool) then -(5 : Int) else 5) ∧
    modelGzip.decompress
      ((buildInitRequest modelGzip [123, 125] 5).drop 12) =
      .ok [123, 125] ∧
    modelGzip.decompress
      ((buildAudioRequest modelGzip [7] 5 true).drop 12) = .ok [7] :=
  client_frames_decode modelGzip jpAlways [123, 125] [7] 5 true
    (by norm_num) (by norm_num)

/-- Counterexample for C6: a socket `'error'` event while the state machine
is `connecting` rejects the pending `connect()` with the transport error,
but the connection state stays `connecting` — the handler of source lines
385-393 never calls `updateState('error')` — so the claimed transition to
the error state does not happen. -/
theorem connecting_transport_error_counterexample :
    connectStep modelGzip jpAlways [] ⟨.connecting, 1, false, true⟩
      .wsError = .ok (⟨.connecting, 1, false, false⟩, [],
        [.error .transportError], some .rejectedTransport) ∧
    ConnectionState.connecting ≠ ConnectionState.error :=
  ⟨rfl, by decide⟩

/-- C6 (amended): from the `connecting` state, the 30-second timeout
(timer still armed) and an HTTP-upgrade failure both move the machine to
the `error` state and reject the pending `connect()` (Timeout and
Transport-upgrade errors respectively); a socket error event rejects the
pending `connect()` with the transport error but leaves the state
`connecting`. -/
theorem connecting_failure_behaviour (gz : GzipCodec)
    (jp : List Nat → Option Payload) (initJson : List Nat)
    (st : ClientState) (hst : st.connectionState = .connecting) :
    (st.timerActive = true →
      connectStep gz jp initJson st .timeoutFired =
        .ok ({ st with connectionState := .error,
                       wsOpen := false,
                       timerActive := false },
             [], [.status .error, .error .connectionTimeout],
             some .rejectedTimeout)) ∧
    connectStep gz jp initJson st .wsError =
      .ok ({ st with timerActive := false },
           [], [.error .transportError], some .rejectedTransport) ∧
    ({ st with timerActive := false } : ClientState).connectionState =
      .connecting ∧
    connectStep gz jp initJson st .unexpectedResponseEnd =
      .ok ({ st with connectionState := .error, timerActive := false },
           [], [.status .error, .error .upgradeFailed],
           some .rejectedUpgrade) ∧
    connectionTimeoutMs = 30000 := by
  refine ⟨?_, ?_, hst, rfl, rfl⟩
  · intro htimer
    simp [connectStep, htimer, hst]
  · simp [connectStep, hst]

/-- Witness for C6 (amended): the connecting state with the timer armed. -/
theorem connecting_failure_behaviour_witness :
    ((⟨.connecting, 1, false, true⟩ : ClientState).timerActive = true →
      connectStep modelGzip jpAlways [] ⟨.connecting, 1, false, true⟩
        .timeoutFired =
        .ok (({ ClientState.mk .connecting 1 false true with
                connectionState := .error,
                wsOpen := false,
                timerActive := false } : ClientState),
             [], [.status .error, .error .connectionTimeout],
             some .rejectedTimeout)) ∧
    connectStep modelGzip jpAlways [] ⟨.connecting, 1, false, true⟩
      .wsError =
      .ok (({ ClientState.mk .connecting 1 false true with
              timerActive := false } : ClientState),
           [], [.error .transportError], some .rejectedTransport) ∧
    ({ ClientState.mk .connecting 1 false true with
       timerActive := false } : ClientState).connectionState =
      .connecting ∧
    connectStep modelGzip jpAlways [] ⟨.connecting, 1, false, true⟩
      .unexpectedResponseEnd =
      .ok (({ ClientState.mk .connecting 1 false true with
              connectionState := .error,
              timerActive := false } : ClientState),
           [], [.status .error, .error .upgradeFailed],
           some .rejectedUpgrade) ∧
    connectionTimeoutMs = 30000 :=
  connecting_failure_behaviour modelGzip jpAlways []
    ⟨.connecting, 1, false, true⟩ rfl

/-- Witness for C1: a session with two audio chunks sends wire sequence
numbers `1, 2, 3, -4`. -/
theorem session_wire_sequence_numbers_witness :
    ((([[7], [8]] : List (List Nat)).length : Int) + 2 ≤ 2147483647) ∧
    (sessionFrames modelGzip [123, 125] [[7], [8]]).map wireSeq =
      1 :: ((List.range ([[7], [8]] : List (List Nat)).length).map
        (fun i : Nat => (i : Int) + 2) ++
        [-((([[7], [8]] : List (List Nat)).length : Int) + 2)]) :=
  ⟨by norm_num,
   session_wire_sequence_numbers modelGzip [123, 125] [[7], [8]]
     (by norm_num)⟩

end Volcengine
